import Mathlib

/-!
Verification development for the `crypticorn_utils` Python library:
the generic pagination/sort/filter query-parameter validator, the
paginated-response page-index helpers, and the exception module
(`BaseError` registry and `ExceptionHandler.build_exception`).

The pagination module itself (`crypticorn_utils/pagination.py`) ships only
with its test suite here, so its data model and validators are modelled
from the specification (each such definition is marked
`Modelled from the spec:`), with the concrete error messages and bounds
taken from the test suite where the spec leaves them open.
The exception module is embedded directly from
`crypticorn_utils/exceptions.py`.
-/

/-- Modelled from the spec: declared scalar types of a target-schema field
(`crypticorn_utils/pagination.py` is not in the sources) — string, integer,
float, boolean, or a closed enumeration of string literals, optionally
nullable (the `optional` wrapper). -/
inductive FieldType where
  | string
  | integer
  | float
  | boolean
  | literals (allowed : List String)
  | optional (base : FieldType)
deriving Repr, DecidableEq

/-- Modelled from the spec: a target schema is a mapping from field name to
declared type, in declared order. `none` stands for an absent/unresolvable
annotation (which the validator passes through without coercion). -/
abbrev Schema := List (String × Option FieldType)

/-- Field names of a schema, in declared order. -/
def fieldNames (s : Schema) : List String := s.map Prod.fst

/-- Look up the declared type of a field (first binding wins). -/
def lookupField : Schema → String → Option (Option FieldType)
  | [], _ => none
  | (n, t) :: rest, f => if n = f then some t else lookupField rest f

/-- Modelled from the spec: a coerced filter value — raw text, parsed
integer, parsed number, parsed boolean, or the null value. -/
inductive FValue where
  | str (s : String)
  | int (n : Int)
  | num (q : Rat)
  | bool (b : Bool)
  | null
deriving Repr, DecidableEq

/-- Modelled from the spec: the validator's error taxonomy (usage error,
range violation, invalid field, invalid order, pairing error, type
mismatch, literal-validation error). Each constructor carries the context
the spec requires the message to name. -/
inductive PError where
  | rangeViolation (field : String) (value : Int) (low : Int) (high : Option Int)
  | invalidField (name : String) (validFields : List String)
  | invalidOrder (value : String) (validOrders : List String)
  | pairingError (first second : String)
  | typeMismatch (expected : String) (actualText : String)
  | validationError (text : String)
  | usageError (msg : String)
deriving Repr, DecidableEq

/-- Digits of a string interpreted as a base-10 natural number. -/
def digitsToNat (l : List Char) : Nat :=
  l.foldl (fun acc c => acc * 10 + (c.toNat - 48)) 0

/-- `true` iff the list is a nonempty run of decimal digits. -/
def allDigits (l : List Char) : Bool :=
  !l.isEmpty && l.all Char.isDigit

/-- Modelled from the spec: parse the textual filter value as an integer
(optional sign followed by decimal digits); `none` when unparsable. -/
def parseIntText (s : String) : Option Int :=
  let core (l : List Char) : Option Nat :=
    if allDigits l then some (digitsToNat l) else none
  match s.data with
  | '-' :: rest => (core rest).map (fun n => -(n : Int))
  | '+' :: rest => (core rest).map (fun n => (n : Int))
  | l => (core l).map (fun n => (n : Int))

/-- Modelled from the spec: parse the textual filter value as a decimal
number (optional sign, integer digits, optional fractional digits),
represented exactly as a rational; `none` when unparsable. -/
def parseFloatText (s : String) : Option Rat :=
  let body (l : List Char) : Option Rat :=
    match l.splitOn '.' with
    | [ip] => if allDigits ip then some ((digitsToNat ip : Int) : Rat) else none
    | [ip, fp] =>
        if (allDigits ip || ip.isEmpty) && (allDigits fp || fp.isEmpty)
            && !(ip.isEmpty && fp.isEmpty) then
          some (((digitsToNat ip : Int) : Rat) +
            ((digitsToNat fp : Int) : Rat) / ((10 ^ fp.length : Int) : Rat))
        else none
    | _ => none
  match s.data with
  | '-' :: rest => (body rest).map (fun q => -q)
  | '+' :: rest => body rest
  | l => body l

/-- Modelled from the spec: the accepted truthy textual forms for a
boolean-typed field (compared case-insensitively). -/
def truthyTexts : List String := ["true", "1", "yes"]

/-- Modelled from the spec: the accepted falsy textual forms for a
boolean-typed field (compared case-insensitively). -/
def falsyTexts : List String := ["false", "0", "no"]

/-- ASCII lowercase of a character (`str.lower()` on the ASCII range). -/
def lowerChar (c : Char) : Char :=
  if 65 ≤ c.toNat ∧ c.toNat ≤ 90 then Char.ofNat (c.toNat + 32) else c

/-- ASCII lowercase of a string (`str.lower()` on the ASCII range). -/
def lowerText (s : String) : String := ⟨s.data.map lowerChar⟩

/-- Modelled from the spec: parse the textual filter value as a boolean. -/
def parseBoolText (s : String) : Option Bool :=
  let l := lowerText s
  if truthyTexts.contains l then some true
  else if falsyTexts.contains l then some false
  else none

/-- Modelled from the spec: coerce a raw textual filter value to a declared
field type. `nullable` records whether an `optional` wrapper was unwrapped
(the spec unwraps a union/optional to its first non-null member before
applying the rule, and only then does the `"none"` sentinel map to null). -/
def coerceValue (t : FieldType) (nullable : Bool) (value : String) :
    Except PError FValue :=
  match t with
  | .optional inner => coerceValue inner true value
  | .string => .ok (.str value)
  | .integer =>
      match parseIntText value with
      | some n => .ok (.int n)
      | none => .error (.typeMismatch "int" value)
  | .float =>
      match parseFloatText value with
      | some q => .ok (.num q)
      | none => .error (.typeMismatch "float" value)
  | .boolean =>
      match parseBoolText value with
      | some b => .ok (.bool b)
      | none => .error (.typeMismatch "bool" value)
  | .literals allowed =>
      if allowed.contains value then .ok (.str value)
      else if nullable && lowerText value = "none" then .ok .null
      else .error (.validationError value)

/-- Modelled from the spec: `_enforce_field_type` — look up the declared
type of the field and coerce the textual value to it; a field with an
absent/unresolvable declared type passes the value through unchanged. -/
def _enforce_field_type (schema : Schema) (field : String) (value : String) :
    Except PError FValue :=
  match lookupField schema field with
  | none => .ok (.str value)
  | some none => .ok (.str value)
  | some (some t) => coerceValue t false value

/-- Modelled from the spec: a page-size profile — default page size and the
closed `[minSize, maxSize]` bound. -/
structure Profile where
  defaultSize : Int
  minSize : Int
  maxSize : Int
deriving Repr, DecidableEq

/-- The standard profile: default 10, bounds `[1, 100]`. -/
def standardProfile : Profile := ⟨10, 1, 100⟩

/-- The heavy profile: default 100, bounds `[1, 1000]`. -/
def heavyProfile : Profile := ⟨100, 1, 1000⟩

/-- Raw query inputs as they arrive from the request: each parameter is
optional; `page`/`page_size` are integers, the rest raw text. -/
structure RawQuery where
  page : Option Int
  page_size : Option Int
  sort_by : Option String
  sort_order : Option String
  filter_by : Option String
  filter_value : Option String
deriving Repr, DecidableEq

/-- The empty raw query (every parameter omitted). -/
def RawQuery.empty : RawQuery := ⟨none, none, none, none, none, none⟩

/-- Modelled from the spec: the generic argument a parameter class is
instantiated with — either a record schema or a non-record type (such as a
plain `int`), which is a usage error. -/
inductive GenericArg where
  | record (schema : Schema)
  | nonRecord (typeName : String)
deriving Repr, DecidableEq

/-- The valid sort orders, in the order the error message lists them. -/
def validOrders : List String := ["asc", "desc"]

/-- Modelled from the spec: page bounds — `page` defaults to 1 and must be
≥ 1; `page_size` defaults per profile and must lie within the profile's
closed bound; violations are range errors. Returns the validated
`(page, page_size)`. -/
def checkPagination (profile : Profile) (page? pageSize? : Option Int) :
    Except PError (Int × Int) :=
  let page := page?.getD 1
  let ps := pageSize?.getD profile.defaultSize
  if page < 1 then .error (.rangeViolation "page" page 1 none)
  else if ps < profile.minSize ∨ ps > profile.maxSize then
    .error (.rangeViolation "page_size" ps profile.minSize (some profile.maxSize))
  else .ok (page, ps)

/-- Modelled from the spec: sort field validation — `sort_by`, if set, must
be a case-sensitive exact match of a schema field name (else invalid-field
error listing the schema's fields in declared order); `sort_order`, if set,
must be exactly `asc` or `desc` (else invalid-order error). -/
def checkSortFields (schema : Schema) (sort_by sort_order : Option String) :
    Except PError Unit := do
  match sort_by with
  | some f =>
      if (fieldNames schema).contains f then pure ()
      else throw (.invalidField f (fieldNames schema))
  | none => pure ()
  match sort_order with
  | some o =>
      if validOrders.contains o then pure ()
      else throw (.invalidOrder o validOrders)
  | none => pure ()

/-- Modelled from the spec: sort pairing — fails iff exactly one of
`sort_by`/`sort_order` is set. -/
def checkSortPairing (sort_by sort_order : Option String) :
    Except PError Unit :=
  if sort_by.isSome != sort_order.isSome then
    .error (.pairingError "sort_order" "sort_by")
  else .ok ()

/-- Modelled from the spec: filter field validation — same field-existence
check as sort, applied to `filter_by`. -/
def checkFilterField (schema : Schema) (filter_by : Option String) :
    Except PError Unit :=
  match filter_by with
  | some f =>
      if (fieldNames schema).contains f then .ok ()
      else .error (.invalidField f (fieldNames schema))
  | none => .ok ()

/-- Modelled from the spec: filter pairing — fails iff exactly one of
`filter_by`/`filter_value` is set. -/
def checkFilterPairing (filter_by filter_value : Option String) :
    Except PError Unit :=
  if filter_by.isSome != filter_value.isSome then
    .error (.pairingError "filter_by" "filter_value")
  else .ok ()

/-- Modelled from the spec: coercion of `filter_value` to the declared type
of the field named by `filter_by`, performed only once field validation and
pairing have passed. -/
def coerceFilterValue (schema : Schema) (filter_by filter_value : Option String) :
    Except PError (Option FValue) :=
  match filter_by, filter_value with
  | some f, some v => (_enforce_field_type schema f v).map some
  | _, _ => .ok none

/-- Validated sort parameters. -/
structure SortParams where
  sort_by : Option String
  sort_order : Option String
deriving Repr, DecidableEq

/-- Validated filter parameters (the filter value already coerced). -/
structure FilterParams where
  filter_by : Option String
  filter_value : Option FValue
deriving Repr, DecidableEq

/-- Validated pagination parameters. -/
structure PaginationParams where
  page : Int
  page_size : Int
deriving Repr, DecidableEq

/-- Validated page + sort parameters. -/
structure PageSortParams where
  page : Int
  page_size : Int
  sort_by : Option String
  sort_order : Option String
deriving Repr, DecidableEq

/-- Validated page + filter parameters. -/
structure PageFilterParams where
  page : Int
  page_size : Int
  filter_by : Option String
  filter_value : Option FValue
deriving Repr, DecidableEq

/-- Validated sort + filter parameters. -/
structure SortFilterParams where
  sort_by : Option String
  sort_order : Option String
  filter_by : Option String
  filter_value : Option FValue
deriving Repr, DecidableEq

/-- Validated page + sort + filter parameters. -/
structure PageSortFilterParams where
  page : Int
  page_size : Int
  sort_by : Option String
  sort_order : Option String
  filter_by : Option String
  filter_value : Option FValue
deriving Repr, DecidableEq

/-- The usage error raised when `SortParams` is instantiated for a
non-record type (message from the test suite). -/
def sortUsageError : PError :=
  .usageError "SortParams must be used with a Pydantic BaseModel as a generic parameter"

/-- The usage error raised when `FilterParams` is instantiated for a
non-record type (message from the test suite). -/
def filterUsageError : PError :=
  .usageError "FilterParams must be used with a Pydantic BaseModel as a generic parameter"

/-- Modelled from the spec: construct `PaginationParams` for a profile.
Pagination validation does not consult the schema's field types; the schema
parameter records that the class is instantiated against a schema. -/
def mkPaginationParams (profile : Profile) (_schema : Schema)
    (page? pageSize? : Option Int) : Except PError PaginationParams := do
  let (page, ps) ← checkPagination profile page? pageSize?
  .ok ⟨page, ps⟩

/-- Modelled from the spec: construct `SortParams` — usage check on the
generic argument, then field-existence/order checks, then pairing. -/
def mkSortParams (arg : GenericArg) (sort_by sort_order : Option String) :
    Except PError SortParams :=
  match arg with
  | .nonRecord _ => .error sortUsageError
  | .record schema => do
      checkSortFields schema sort_by sort_order
      checkSortPairing sort_by sort_order
      .ok ⟨sort_by, sort_order⟩

/-- Modelled from the spec: construct `FilterParams` — usage check, field
existence, pairing, then type coercion of the filter value. -/
def mkFilterParams (arg : GenericArg) (filter_by filter_value : Option String) :
    Except PError FilterParams :=
  match arg with
  | .nonRecord _ => .error filterUsageError
  | .record schema => do
      checkFilterField schema filter_by
      checkFilterPairing filter_by filter_value
      let v ← coerceFilterValue schema filter_by filter_value
      .ok ⟨filter_by, v⟩

/-- Modelled from the spec: construct `SortFilterParams` — the union of the
sort and filter invariants, checks ordered field-existence before pairing
before coercion within each concern, sort before filter. -/
def mkSortFilterParams (arg : GenericArg) (q : RawQuery) :
    Except PError SortFilterParams :=
  match arg with
  | .nonRecord _ => .error sortUsageError
  | .record schema => do
      checkSortFields schema q.sort_by q.sort_order
      checkSortPairing q.sort_by q.sort_order
      checkFilterField schema q.filter_by
      checkFilterPairing q.filter_by q.filter_value
      let v ← coerceFilterValue schema q.filter_by q.filter_value
      .ok ⟨q.sort_by, q.sort_order, q.filter_by, v⟩

/-- Modelled from the spec: construct `PageSortParams`. -/
def mkPageSortParams (profile : Profile) (arg : GenericArg) (q : RawQuery) :
    Except PError PageSortParams :=
  match arg with
  | .nonRecord _ => .error sortUsageError
  | .record schema => do
      let (page, ps) ← checkPagination profile q.page q.page_size
      checkSortFields schema q.sort_by q.sort_order
      checkSortPairing q.sort_by q.sort_order
      .ok ⟨page, ps, q.sort_by, q.sort_order⟩

/-- Modelled from the spec: construct `PageFilterParams`. -/
def mkPageFilterParams (profile : Profile) (arg : GenericArg) (q : RawQuery) :
    Except PError PageFilterParams :=
  match arg with
  | .nonRecord _ => .error filterUsageError
  | .record schema => do
      let (page, ps) ← checkPagination profile q.page q.page_size
      checkFilterField schema q.filter_by
      checkFilterPairing q.filter_by q.filter_value
      let v ← coerceFilterValue schema q.filter_by q.filter_value
      .ok ⟨page, ps, q.filter_by, v⟩

/-- Modelled from the spec: construct `PageSortFilterParams` — the union of
all three concerns' invariants. -/
def mkPageSortFilterParams (profile : Profile) (arg : GenericArg) (q : RawQuery) :
    Except PError PageSortFilterParams :=
  match arg with
  | .nonRecord _ => .error sortUsageError
  | .record schema => do
      let (page, ps) ← checkPagination profile q.page q.page_size
      checkSortFields schema q.sort_by q.sort_order
      checkSortPairing q.sort_by q.sort_order
      checkFilterField schema q.filter_by
      checkFilterPairing q.filter_by q.filter_value
      let v ← coerceFilterValue schema q.filter_by q.filter_value
      .ok ⟨page, ps, q.sort_by, q.sort_order, q.filter_by, v⟩

namespace PaginatedResponse

/-- Modelled from the spec: `last_page(total, page_size) =
max(1, ceil(total / page_size))`, implemented with integer arithmetic
(`(total + page_size - 1) / page_size` is the integer form of the ceiling
for a positive page size). -/
def get_last_page (total page_size : Int) : Int :=
  max 1 ((total + page_size - 1) / page_size)

/-- Modelled from the spec: `next_page` — `page + 1` if `page < last_page`,
else absent. -/
def get_next_page (total page_size page : Int) : Option Int :=
  if page < get_last_page total page_size then some (page + 1) else none

/-- Modelled from the spec: `prev_page` — `page - 1` if `page > 1`, else
absent (defensively, `page ≤ 0` also yields absent). -/
def get_prev_page (page : Int) : Option Int :=
  if page > 1 then some (page - 1) else none

end PaginatedResponse

/-- `BaseError` from `crypticorn_utils/exceptions.py`: the error descriptor
(identifier, HTTP status code, websocket close code). -/
structure BaseError where
  identifier : String
  http_code : Int
  websocket_code : Int
deriving Repr, DecidableEq

namespace BaseError

/-- The class-level `_instances` registry: identifier string → instance. -/
abbrev Registry := List (String × BaseError)

/-- Dictionary assignment `d[k] = e`: replace the binding of `k` if present
(keeping its position), otherwise append. -/
def setKey : Registry → String → BaseError → Registry
  | [], k, e => [(k, e)]
  | (k', e') :: rest, k, e =>
      if k' = k then (k, e) :: rest else (k', e') :: setKey rest k e

/-- `__post_init__`: register the instance in the class-level registry
under the string form of its identifier. -/
def registerInstance (reg : Registry) (e : BaseError) : Registry :=
  setKey reg e.identifier e

/-- Dictionary lookup `d[k]` / `k in d`. -/
def lookupKey : Registry → String → Option BaseError
  | [], _ => none
  | (k', e) :: rest, k => if k' = k then some e else lookupKey rest k

/-- The registry after constructing the given errors in order, starting
from the empty class-level dictionary. -/
def buildRegistry (errs : List BaseError) : Registry :=
  errs.foldl registerInstance []

/-- `BaseError.from_identifier`: return the registered instance, or raise
`ValueError` naming the identifier. -/
def from_identifier (reg : Registry) (ident : String) : Except String BaseError :=
  match lookupKey reg ident with
  | some e => .ok e
  | none => .error ("Unknown error identifier: " ++ ident)

end BaseError

/-- `_ExceptionDetail` from `crypticorn_utils/exceptions.py`: the payload
serialized into the exception (message, machine-readable code, status
code, details). `details` is `Any` in the source; modelled as optional
text. -/
structure ExceptionDetail where
  message : Option String
  code : String
  status_code : Int
  details : Option String
deriving Repr, DecidableEq

/-- `_EXCEPTION_TYPES`: the `type` argument of `build_exception`. -/
inductive ExcType where
  | http
  | websocket
deriving Repr, DecidableEq

/-- The exception value `build_exception` returns: a FastAPI
`HTTPException` (detail, headers, status_code) or `WebSocketException`
(reason, code). -/
inductive BuiltException where
  | httpExc (detail : ExceptionDetail) (headers : Option (List (String × String)))
      (status_code : Int)
  | websocketExc (reason : ExceptionDetail) (code : Int)
deriving Repr, DecidableEq

namespace ExceptionHandler

/-- `ExceptionHandler._http_exception`: wrap the detail into an
`HTTPException` with the detail's status code. -/
def _http_exception (content : ExceptionDetail)
    (headers : Option (List (String × String))) : BuiltException :=
  .httpExc content headers content.status_code

/-- `ExceptionHandler._websocket_exception`: wrap the detail into a
`WebSocketException` whose close code is the detail's status code. -/
def _websocket_exception (content : ExceptionDetail) : BuiltException :=
  .websocketExc content content.status_code

/-- `ExceptionHandler.build_exception`: look the error up through the
configured callback, build the `_ExceptionDetail` (status code chosen by
exception type), and wrap it as an HTTP or websocket exception. -/
def build_exception (callback : String → Except String BaseError)
    (code : String) (message : Option String)
    (headers : Option (List (String × String))) (details : Option String)
    (ty : ExcType) : Except String BuiltException := do
  let error ← callback code
  let content : ExceptionDetail :=
    ⟨message, error.identifier,
      (match ty with
       | .http => error.http_code
       | .websocket => error.websocket_code), details⟩
  match ty with
  | .http => .ok (_http_exception content headers)
  | .websocket => .ok (_websocket_exception content)

end ExceptionHandler

/-- The most recently constructed error carrying the given identifier, if
any — the instance the registry is expected to hold for that identifier. -/
def lastWith : List BaseError → String → Option BaseError
  | [], _ => none
  | e :: rest, ident =>
      match lastWith rest ident with
      | some r => some r
      | none => if e.identifier = ident then some e else none

/-- A successful lookup means the field name occurs among the schema's
field names. -/
theorem lookupField_contains : ∀ (schema : Schema) (f : String) (t : Option FieldType),
    lookupField schema f = some t → (fieldNames schema).contains f = true
  | [], f, t, h => by simp [lookupField] at h
  | (n, ty) :: rest, f, t, h => by
      simp only [lookupField] at h
      by_cases he : n = f
      · simp [fieldNames, he]
      · rw [if_neg he] at h
        have ih := lookupField_contains rest f t h
        simp only [fieldNames, List.map_cons, List.contains_cons] at ih ⊢
        rw [ih]
        simp

/-- The integer implementation of `get_last_page` computes
`max(1, ceil(total / page_size))` exactly. -/
theorem get_last_page_eq_ceil (total page_size : Int) (ht : 0 ≤ total)
    (hp : 1 ≤ page_size) :
    PaginatedResponse.get_last_page total page_size =
      max 1 (Int.ceil ((total : ℚ) / (page_size : ℚ))) := by
  obtain ⟨t, rfl⟩ := Int.eq_ofNat_of_zero_le ht
  obtain ⟨p, rfl⟩ := Int.eq_ofNat_of_zero_le (le_trans zero_le_one hp)
  have hp' : 1 ≤ p := by exact_mod_cast hp
  have hcast : ((t : ℤ) + (p : ℤ) - 1) = ((t + p - 1 : ℕ) : ℤ) := by
    push_cast [Nat.cast_sub (by omega : 1 ≤ t + p)]
    ring
  set n := (t + p - 1) / p with hn
  have hA : t ≤ p * n := by
    have h1 := Nat.lt_mul_div_succ (t + p - 1) (by omega : 0 < p)
    rw [← hn] at h1
    have h2 : p * (n + 1) = p * n + p := by ring
    rw [h2] at h1
    omega
  have hB : n * p ≤ t + p - 1 := Nat.div_mul_le_self _ _
  have hceil : Int.ceil (((t : ℤ) : ℚ) / ((p : ℤ) : ℚ)) = (n : ℤ) := by
    rw [Int.ceil_eq_iff]
    have hpq : (0 : ℚ) < ((p : ℤ) : ℚ) := by
      exact_mod_cast (by omega : (0 : ℤ) < (p : ℤ))
    constructor
    · rw [lt_div_iff₀ hpq]
      have h3 : ((n * p : ℕ) : ℤ) - (p : ℤ) < (t : ℤ) := by
        have h5 : ((n * p : ℕ) : ℤ) ≤ ((t + p - 1 : ℕ) : ℤ) := by exact_mod_cast hB
        rw [← hcast] at h5
        omega
      have h4 : (((n : ℤ) : ℚ) - 1) * (((p : ℤ)) : ℚ) =
          (((n * p : ℕ) : ℤ) : ℚ) - (((p : ℕ) : ℤ) : ℚ) := by
        push_cast
        ring
      rw [h4]
      exact_mod_cast h3
    · rw [div_le_iff₀ hpq]
      have h6 : ((t : ℤ) : ℚ) ≤ (((p * n : ℕ) : ℤ) : ℚ) := by exact_mod_cast hA
      calc ((t : ℤ) : ℚ) ≤ (((p * n : ℕ) : ℤ) : ℚ) := h6
      _ = ((n : ℤ) : ℚ) * ((p : ℤ) : ℚ) := by push_cast; ring
  rw [hceil]
  simp only [PaginatedResponse.get_last_page]
  congr 1
  rw [hcast, ← Int.natCast_div]

/-- C1: for every schema and construction of pagination parameters, page and
page_size within the profile's bounds succeed and are echoed exactly;
omitted values take the profile default (page 1; page_size 10 standard,
100 heavy); any page_size outside `[1,100]` (standard) or `[1,1000]`
(heavy) fails with a range error. -/
theorem claim_C1_pagination_bounds_and_defaults :
    (∀ (schema : Schema) (page? pageSize? : Option Int),
      1 ≤ page?.getD 1 → 1 ≤ pageSize?.getD 10 → pageSize?.getD 10 ≤ 100 →
      mkPaginationParams standardProfile schema page? pageSize? =
        .ok ⟨page?.getD 1, pageSize?.getD 10⟩) ∧
    (∀ (schema : Schema) (page? pageSize? : Option Int),
      1 ≤ page?.getD 1 → 1 ≤ pageSize?.getD 100 → pageSize?.getD 100 ≤ 1000 →
      mkPaginationParams heavyProfile schema page? pageSize? =
        .ok ⟨page?.getD 1, pageSize?.getD 100⟩) ∧
    (∀ (schema : Schema),
      mkPaginationParams standardProfile schema none none = .ok ⟨1, 10⟩) ∧
    (∀ (schema : Schema),
      mkPaginationParams heavyProfile schema none none = .ok ⟨1, 100⟩) ∧
    (∀ (schema : Schema) (page? : Option Int) (ps : Int), ps < 1 ∨ 100 < ps →
      ∃ f v lo hi, mkPaginationParams standardProfile schema page? (some ps) =
        .error (.rangeViolation f v lo hi)) ∧
    (∀ (schema : Schema) (page? : Option Int) (ps : Int), ps < 1 ∨ 1000 < ps →
      ∃ f v lo hi, mkPaginationParams heavyProfile schema page? (some ps) =
        .error (.rangeViolation f v lo hi)) := by
  refine ⟨?_, ?_, fun _ => rfl, fun _ => rfl, ?_, ?_⟩
  · intro schema page? pageSize? h1 h2 h3
    simp only [mkPaginationParams, checkPagination, standardProfile]
    rw [if_neg (by omega), if_neg (by simp; omega)]
    rfl
  · intro schema page? pageSize? h1 h2 h3
    simp only [mkPaginationParams, checkPagination, heavyProfile]
    rw [if_neg (by omega), if_neg (by simp; omega)]
    rfl
  · intro schema page? ps h
    simp only [mkPaginationParams, checkPagination, standardProfile]
    by_cases hp : page?.getD 1 < 1
    · rw [if_pos hp]
      exact ⟨"page", page?.getD 1, 1, none, rfl⟩
    · rw [if_neg hp, if_pos (by simp; omega)]
      exact ⟨"page_size", ps, 1, some 100, rfl⟩
  · intro schema page? ps h
    simp only [mkPaginationParams, checkPagination, heavyProfile]
    by_cases hp : page?.getD 1 < 1
    · rw [if_pos hp]
      exact ⟨"page", page?.getD 1, 1, none, rfl⟩
    · rw [if_neg hp, if_pos (by simp; omega)]
      exact ⟨"page_size", ps, 1, some 1000, rfl⟩

/-- Witness for C1 at concrete inputs: echo at `(2, 20)` (standard), the
heavy default `(1, 100)`, and range errors at page_size 101 (standard) and
1001 (heavy). -/
theorem claim_C1_pagination_bounds_and_defaults_witness :
    mkPaginationParams standardProfile [("name", some .string)] (some 2) (some 20) =
      .ok ⟨2, 20⟩ ∧
    mkPaginationParams heavyProfile [] none none = .ok ⟨1, 100⟩ ∧
    (∃ f v lo hi, mkPaginationParams standardProfile [] none (some 101) =
      .error (.rangeViolation f v lo hi)) ∧
    (∃ f v lo hi, mkPaginationParams heavyProfile [] none (some 1001) =
      .error (.rangeViolation f v lo hi)) :=
  ⟨claim_C1_pagination_bounds_and_defaults.1 _ _ _ (by decide) (by decide) (by decide),
   claim_C1_pagination_bounds_and_defaults.2.2.2.1 _,
   claim_C1_pagination_bounds_and_defaults.2.2.2.2.1 _ _ _ (by decide),
   claim_C1_pagination_bounds_and_defaults.2.2.2.2.2 _ _ _ (by decide)⟩

/-- C6: instantiating the sort or filter validator for a non-record type
fails with the usage error regardless of the request parameters, also in
the composed parameter records. -/
theorem claim_C6_non_record_usage_error :
    (∀ (t : String) (sb so : Option String),
      mkSortParams (.nonRecord t) sb so = .error sortUsageError) ∧
    (∀ (t : String) (fb fv : Option String),
      mkFilterParams (.nonRecord t) fb fv = .error filterUsageError) ∧
    (∀ (t : String) (q : RawQuery),
      mkSortFilterParams (.nonRecord t) q = .error sortUsageError) ∧
    (∀ (t : String) (q : RawQuery),
      mkPageSortFilterParams standardProfile (.nonRecord t) q = .error sortUsageError) :=
  ⟨fun _ _ _ => rfl, fun _ _ _ => rfl, fun _ _ => rfl, fun _ _ => rfl⟩

/-- C7: `last_page(total, page_size) = max(1, ceil(total / page_size))` for
every `total ≥ 0` and `page_size ≥ 1`; in particular `last_page(0, 10) = 1`
and `last_page(100, 10) = 10`. -/
theorem claim_C7_last_page :
    (∀ (total page_size : Int), 0 ≤ total → 1 ≤ page_size →
      PaginatedResponse.get_last_page total page_size =
        max 1 (Int.ceil ((total : ℚ) / (page_size : ℚ)))) ∧
    PaginatedResponse.get_last_page 0 10 = 1 ∧
    PaginatedResponse.get_last_page 100 10 = 10 :=
  ⟨get_last_page_eq_ceil, by decide, by decide⟩

/-- Witness for C7 at `total = 100`, `page_size = 10`. -/
theorem claim_C7_last_page_witness :
    (0 : Int) ≤ 100 ∧ (1 : Int) ≤ 10 ∧
    PaginatedResponse.get_last_page 100 10 =
      max 1 (Int.ceil ((100 : ℚ) / (10 : ℚ))) :=
  ⟨by decide, by decide, claim_C7_last_page.1 100 10 (by decide) (by decide)⟩

/-- C8: `next_page(total, page_size, page)` is `page + 1` exactly when
`page < last_page = max(1, ceil(total / page_size))` and absent otherwise,
including at the last page and beyond it. -/
theorem claim_C8_next_page :
    (∀ (total page_size page : Int), 0 ≤ total → 1 ≤ page_size →
      PaginatedResponse.get_next_page total page_size page =
        if page < max 1 (Int.ceil ((total : ℚ) / (page_size : ℚ)))
        then some (page + 1) else none) ∧
    PaginatedResponse.get_next_page 100 10 5 = some 6 ∧
    PaginatedResponse.get_next_page 100 10 10 = none ∧
    PaginatedResponse.get_next_page 100 10 11 = none := by
  refine ⟨?_, by decide, by decide, by decide⟩
  intro total page_size page ht hp
  rw [PaginatedResponse.get_next_page, get_last_page_eq_ceil total page_size ht hp]

/-- Witness for C8 at `total = 100`, `page_size = 10`, `page = 11`. -/
theorem claim_C8_next_page_witness :
    (0 : Int) ≤ 100 ∧ (1 : Int) ≤ 10 ∧
    PaginatedResponse.get_next_page 100 10 11 =
      (if (11 : Int) < max 1 (Int.ceil ((100 : ℚ) / (10 : ℚ)))
       then some ((11 : Int) + 1) else none) :=
  ⟨by decide, by decide, claim_C8_next_page.1 100 10 11 (by decide) (by decide)⟩

/-- C2: supplying exactly one of sort_by/sort_order fails with the pairing
error, while neither, or both with a valid field and order, succeed; the
same pairing law holds for filter_by/filter_value (a valid field and a
coercible value), also when composed with pagination into the combined
parameter records. -/
theorem claim_C2_pairing_laws :
    (∀ (schema : Schema) (f : String), f ∈ fieldNames schema →
      mkSortParams (.record schema) (some f) none =
        .error (.pairingError "sort_order" "sort_by")) ∧
    (∀ (schema : Schema) (o : String), o ∈ validOrders →
      mkSortParams (.record schema) none (some o) =
        .error (.pairingError "sort_order" "sort_by")) ∧
    (∀ (schema : Schema), mkSortParams (.record schema) none none = .ok ⟨none, none⟩) ∧
    (∀ (schema : Schema) (f o : String), f ∈ fieldNames schema → o ∈ validOrders →
      mkSortParams (.record schema) (some f) (some o) = .ok ⟨some f, some o⟩) ∧
    (∀ (schema : Schema) (f : String), f ∈ fieldNames schema →
      mkFilterParams (.record schema) (some f) none =
        .error (.pairingError "filter_by" "filter_value")) ∧
    (∀ (schema : Schema) (v : String),
      mkFilterParams (.record schema) none (some v) =
        .error (.pairingError "filter_by" "filter_value")) ∧
    (∀ (schema : Schema), mkFilterParams (.record schema) none none = .ok ⟨none, none⟩) ∧
    (∀ (schema : Schema) (f v : String) (w : FValue), f ∈ fieldNames schema →
      _enforce_field_type schema f v = .ok w →
      mkFilterParams (.record schema) (some f) (some v) = .ok ⟨some f, some w⟩) ∧
    (∀ (schema : Schema) (f : String), f ∈ fieldNames schema →
      mkPageSortFilterParams standardProfile (.record schema)
        ⟨none, none, some f, none, none, none⟩ =
        .error (.pairingError "sort_order" "sort_by")) ∧
    (∀ (schema : Schema) (f : String), f ∈ fieldNames schema →
      mkPageSortFilterParams standardProfile (.record schema)
        ⟨none, none, none, none, some f, none⟩ =
        .error (.pairingError "filter_by" "filter_value")) := by
  refine ⟨?_, ?_, ?_, ?_, ?_, ?_, ?_, ?_, ?_, ?_⟩
  · intro schema f hf
    simp [mkSortParams, checkSortFields, hf, checkSortPairing, Except.bind, bind,
      pure, Except.pure]
  · intro schema o ho
    simp only [validOrders, List.mem_cons, List.not_mem_nil, or_false] at ho
    rcases ho with rfl | rfl <;>
      simp [mkSortParams, checkSortFields, checkSortPairing, validOrders,
        Except.bind, bind, pure, Except.pure]
  · intro schema
    rfl
  · intro schema f o hf ho
    simp only [validOrders, List.mem_cons, List.not_mem_nil, or_false] at ho
    rcases ho with rfl | rfl <;>
      simp [mkSortParams, checkSortFields, hf, checkSortPairing, validOrders,
        Except.bind, bind, pure, Except.pure]
  · intro schema f hf
    simp [mkFilterParams, checkFilterField, hf, checkFilterPairing,
      coerceFilterValue, Except.bind, bind, pure, Except.pure]
  · intro schema v
    rfl
  · intro schema
    rfl
  · intro schema f v w hf hw
    simp [mkFilterParams, checkFilterField, hf, checkFilterPairing,
      coerceFilterValue, hw, Except.bind, bind, pure, Except.pure, Except.map]
  · intro schema f hf
    simp [mkPageSortFilterParams, checkPagination, standardProfile,
      checkSortFields, hf, checkSortPairing, Except.bind, bind, pure, Except.pure]
  · intro schema f hf
    simp [mkPageSortFilterParams, checkPagination, standardProfile,
      checkSortFields, checkSortPairing, checkFilterField, hf,
      checkFilterPairing, Except.bind, bind, pure, Except.pure]

/-- Witness for C2 over the schema of the test suite's `Item` model. -/
theorem claim_C2_pairing_laws_witness :
    mkSortParams (.record [("name", some .string), ("value", some .integer)])
      (some "name") none = .error (.pairingError "sort_order" "sort_by") ∧
    mkSortParams (.record [("name", some .string), ("value", some .integer)])
      (some "name") (some "asc") = .ok ⟨some "name", some "asc"⟩ ∧
    mkFilterParams (.record [("name", some .string), ("value", some .integer)])
      (some "name") none = .error (.pairingError "filter_by" "filter_value") ∧
    mkFilterParams (.record [("name", some .string), ("value", some .integer)])
      (some "name") (some "test") = .ok ⟨some "name", some (.str "test")⟩ ∧
    mkPageSortFilterParams standardProfile
      (.record [("name", some .string), ("value", some .integer)])
      ⟨none, none, some "name", none, none, none⟩ =
      .error (.pairingError "sort_order" "sort_by") :=
  ⟨claim_C2_pairing_laws.1 _ "name" (by decide),
   claim_C2_pairing_laws.2.2.2.1 _ "name" "asc" (by decide) (by decide),
   claim_C2_pairing_laws.2.2.2.2.1 _ "name" (by decide),
   claim_C2_pairing_laws.2.2.2.2.2.2.2.1 _ "name" "test" (.str "test") (by decide) rfl,
   claim_C2_pairing_laws.2.2.2.2.2.2.2.2.1 _ "name" (by decide)⟩

/-- C3: filtering on an integer- or float-typed field fails with a
type-mismatch error naming the expected type and the textual value when the
text does not parse, and stores the parsed number when it does (e.g. "42"
on an integer field yields the integer 42). -/
theorem claim_C3_numeric_coercion :
    (∀ (schema : Schema) (fb v : String),
      lookupField schema fb = some (some .integer) →
      (parseIntText v = none →
        mkFilterParams (.record schema) (some fb) (some v) =
          .error (.typeMismatch "int" v)) ∧
      (∀ n : Int, parseIntText v = some n →
        mkFilterParams (.record schema) (some fb) (some v) =
          .ok ⟨some fb, some (.int n)⟩)) ∧
    (∀ (schema : Schema) (fb v : String),
      lookupField schema fb = some (some .float) →
      (parseFloatText v = none →
        mkFilterParams (.record schema) (some fb) (some v) =
          .error (.typeMismatch "float" v)) ∧
      (∀ q : Rat, parseFloatText v = some q →
        mkFilterParams (.record schema) (some fb) (some v) =
          .ok ⟨some fb, some (.num q)⟩)) ∧
    mkFilterParams (.record [("name", some .string), ("value", some .integer)])
      (some "value") (some "42") = .ok ⟨some "value", some (.int 42)⟩ := by
  refine ⟨?_, ?_, rfl⟩
  · intro schema fb v hf
    have hm : fb ∈ fieldNames schema := by
      simpa using lookupField_contains schema fb _ hf
    constructor
    · intro hp
      simp [mkFilterParams, checkFilterField, hm, checkFilterPairing,
        coerceFilterValue, _enforce_field_type, hf, coerceValue, hp,
        Except.map, Except.bind, bind, pure, Except.pure]
    · intro n hp
      simp [mkFilterParams, checkFilterField, hm, checkFilterPairing,
        coerceFilterValue, _enforce_field_type, hf, coerceValue, hp,
        Except.map, Except.bind, bind, pure, Except.pure]
  · intro schema fb v hf
    have hm : fb ∈ fieldNames schema := by
      simpa using lookupField_contains schema fb _ hf
    constructor
    · intro hp
      simp [mkFilterParams, checkFilterField, hm, checkFilterPairing,
        coerceFilterValue, _enforce_field_type, hf, coerceValue, hp,
        Except.map, Except.bind, bind, pure, Except.pure]
    · intro q hp
      simp [mkFilterParams, checkFilterField, hm, checkFilterPairing,
        coerceFilterValue, _enforce_field_type, hf, coerceValue, hp,
        Except.map, Except.bind, bind, pure, Except.pure]

/-- Witness for C3: "not_a_number" fails on the integer field `value`,
"42" parses to 42, and "1.23" parses to 123/100 on a float field. -/
theorem claim_C3_numeric_coercion_witness :
    mkFilterParams (.record [("name", some .string), ("value", some .integer)])
      (some "value") (some "not_a_number") =
      .error (.typeMismatch "int" "not_a_number") ∧
    mkFilterParams (.record [("name", some .string), ("value", some .integer)])
      (some "value") (some "42") = .ok ⟨some "value", some (.int 42)⟩ ∧
    mkFilterParams (.record [("previous", some .float)])
      (some "previous") (some "1.23") = .ok ⟨some "previous", some (.num (123 / 100))⟩ :=
  ⟨(claim_C3_numeric_coercion.1 [("name", some .string), ("value", some .integer)]
      "value" "not_a_number" rfl).1 rfl,
   (claim_C3_numeric_coercion.1 [("name", some .string), ("value", some .integer)]
      "value" "42" rfl).2 42 rfl,
   (claim_C3_numeric_coercion.2.1 [("previous", some .float)] "previous" "1.23" rfl).2
      (123 / 100) (by show some ((1 : Rat) + 23 / 100) = some (123 / 100); norm_num)⟩

/-- C4: filtering on a nullable closed string-literal field accepts a
case-sensitive literal match unchanged, coerces the sentinel "none"
(case-insensitive) to null, and rejects every other value with a
validation error. -/
theorem claim_C4_literal_coercion (schema : Schema) (fb v : String)
    (allowed : List String)
    (hf : lookupField schema fb = some (some (.optional (.literals allowed)))) :
    (allowed.contains v = true →
      mkFilterParams (.record schema) (some fb) (some v) =
        .ok ⟨some fb, some (.str v)⟩) ∧
    (allowed.contains v = false → lowerText v = "none" →
      mkFilterParams (.record schema) (some fb) (some v) =
        .ok ⟨some fb, some .null⟩) ∧
    (allowed.contains v = false → lowerText v ≠ "none" →
      mkFilterParams (.record schema) (some fb) (some v) =
        .error (.validationError v)) := by
  have hm : fb ∈ fieldNames schema := by
    simpa using lookupField_contains schema fb _ hf
  refine ⟨?_, ?_, ?_⟩
  · intro ha
    have ha' : v ∈ allowed := by simpa using ha
    simp [mkFilterParams, checkFilterField, hm, checkFilterPairing,
      coerceFilterValue, _enforce_field_type, hf, coerceValue, ha',
      Except.map, Except.bind, bind, pure, Except.pure]
  · intro ha hnone
    have ha' : ¬ (v ∈ allowed) := by simpa using ha
    simp [mkFilterParams, checkFilterField, hm, checkFilterPairing,
      coerceFilterValue, _enforce_field_type, hf, coerceValue, ha', hnone,
      Except.map, Except.bind, bind, pure, Except.pure]
  · intro ha hnone
    have ha' : ¬ (v ∈ allowed) := by simpa using ha
    simp [mkFilterParams, checkFilterField, hm, checkFilterPairing,
      coerceFilterValue, _enforce_field_type, hf, coerceValue, ha', hnone,
      Except.map, Except.bind, bind, pure, Except.pure]

/-- Witness for C4 over the test suite's `Econ.impact` field
(`Optional[Literal["Low", "Medium", "High"]]`): "High" is accepted
unchanged, "NONE" coerces to null, "INVALID" is rejected. -/
theorem claim_C4_literal_coercion_witness :
    mkFilterParams (.record [("impact", some (.optional (.literals ["Low", "Medium", "High"])))])
      (some "impact") (some "High") = .ok ⟨some "impact", some (.str "High")⟩ ∧
    mkFilterParams (.record [("impact", some (.optional (.literals ["Low", "Medium", "High"])))])
      (some "impact") (some "NONE") = .ok ⟨some "impact", some .null⟩ ∧
    mkFilterParams (.record [("impact", some (.optional (.literals ["Low", "Medium", "High"])))])
      (some "impact") (some "INVALID") = .error (.validationError "INVALID") :=
  ⟨(claim_C4_literal_coercion [("impact", some (.optional (.literals ["Low", "Medium", "High"])))]
      "impact" "High" ["Low", "Medium", "High"] rfl).1 (by decide),
   (claim_C4_literal_coercion [("impact", some (.optional (.literals ["Low", "Medium", "High"])))]
      "impact" "NONE" ["Low", "Medium", "High"] rfl).2.1 (by decide) (by decide),
   (claim_C4_literal_coercion [("impact", some (.optional (.literals ["Low", "Medium", "High"])))]
      "impact" "INVALID" ["Low", "Medium", "High"] rfl).2.2 (by decide) (by decide)⟩

/-- C5: field-existence errors win over pairing errors (an unknown
sort_by/filter_by with the paired parameter absent reports the
invalid-field error), and a pairing violation is reported as the pairing
error with no coercion of filter_value attempted (in the combined record,
even an uncoercible filter pair is preempted by the sort pairing error). -/
theorem claim_C5_check_ordering :
    (∀ (schema : Schema) (f : String), (fieldNames schema).contains f = false →
      mkSortParams (.record schema) (some f) none =
        .error (.invalidField f (fieldNames schema))) ∧
    (∀ (schema : Schema) (f : String), (fieldNames schema).contains f = false →
      mkFilterParams (.record schema) (some f) none =
        .error (.invalidField f (fieldNames schema))) ∧
    (∀ (schema : Schema) (sb so : Option String),
      checkSortFields schema sb so = .ok () → (sb.isSome != so.isSome) = true →
      mkSortParams (.record schema) sb so =
        .error (.pairingError "sort_order" "sort_by")) ∧
    (∀ (schema : Schema) (fb fv : Option String),
      checkFilterField schema fb = .ok () → (fb.isSome != fv.isSome) = true →
      mkFilterParams (.record schema) fb fv =
        .error (.pairingError "filter_by" "filter_value")) ∧
    (∀ (schema : Schema) (f fb fv : String),
      f ∈ fieldNames schema → fb ∈ fieldNames schema →
      mkPageSortFilterParams standardProfile (.record schema)
        ⟨none, none, some f, none, some fb, some fv⟩ =
        .error (.pairingError "sort_order" "sort_by")) := by
  refine ⟨?_, ?_, ?_, ?_, ?_⟩
  · intro schema f hf
    have : ¬ (f ∈ fieldNames schema) := by simpa using hf
    simp [mkSortParams, checkSortFields, this, Except.bind, bind, pure,
      Except.pure, throw, throwThe, MonadExceptOf.throw]
  · intro schema f hf
    have : ¬ (f ∈ fieldNames schema) := by simpa using hf
    simp [mkFilterParams, checkFilterField, this, Except.bind, bind, pure,
      Except.pure]
  · intro schema sb so hok hpair
    simp [mkSortParams, hok, checkSortPairing, hpair, Except.bind, bind, pure,
      Except.pure]
  · intro schema fb fv hok hpair
    simp [mkFilterParams, hok, checkFilterPairing, hpair, Except.bind, bind,
      pure, Except.pure]
  · intro schema f fb fv hf hfb
    simp [mkPageSortFilterParams, checkPagination, standardProfile,
      checkSortFields, hf, checkSortPairing, Except.bind, bind, pure,
      Except.pure]

/-- Witness for C5 over the `Item` schema: unknown field "foo" reports the
invalid-field error listing `["name", "value"]` even though pairing is also
violated; a valid field with the paired parameter missing reports the
pairing error even with an uncoercible filter value waiting. -/
theorem claim_C5_check_ordering_witness :
    mkSortParams (.record [("name", some .string), ("value", some .integer)])
      (some "foo") none = .error (.invalidField "foo" ["name", "value"]) ∧
    mkFilterParams (.record [("name", some .string), ("value", some .integer)])
      (some "foo") none = .error (.invalidField "foo" ["name", "value"]) ∧
    mkSortParams (.record [("name", some .string), ("value", some .integer)])
      (some "name") none = .error (.pairingError "sort_order" "sort_by") ∧
    mkFilterParams (.record [("name", some .string), ("value", some .integer)])
      (some "value") none = .error (.pairingError "filter_by" "filter_value") ∧
    mkPageSortFilterParams standardProfile
      (.record [("name", some .string), ("value", some .integer)])
      ⟨none, none, some "name", none, some "value", some "not_a_number"⟩ =
      .error (.pairingError "sort_order" "sort_by") :=
  ⟨claim_C5_check_ordering.1 [("name", some .string), ("value", some .integer)]
      "foo" (by decide),
   claim_C5_check_ordering.2.1 [("name", some .string), ("value", some .integer)]
      "foo" (by decide),
   claim_C5_check_ordering.2.2.1 [("name", some .string), ("value", some .integer)]
      (some "name") none rfl (by decide),
   claim_C5_check_ordering.2.2.2.1 [("name", some .string), ("value", some .integer)]
      (some "value") none rfl (by decide),
   claim_C5_check_ordering.2.2.2.2 [("name", some .string), ("value", some .integer)]
      "name" "value" "not_a_number" (by decide) (by decide)⟩

/-- Lookup after a dictionary assignment: the new binding wins for its key,
every other key is unchanged. -/
theorem lookupKey_setKey (reg : BaseError.Registry) (k : String) (e : BaseError)
    (ident : String) :
    BaseError.lookupKey (BaseError.setKey reg k e) ident =
      if k = ident then some e else BaseError.lookupKey reg ident := by
  induction reg with
  | nil => simp [BaseError.setKey, BaseError.lookupKey]
  | cons hd tl ih =>
    obtain ⟨k', e'⟩ := hd
    by_cases hk : k' = k
    · subst hk
      simp only [BaseError.setKey, if_pos rfl, BaseError.lookupKey]
      by_cases hi : k' = ident
      · simp [hi]
      · simp [hi]
    · simp only [BaseError.setKey, if_neg hk, BaseError.lookupKey]
      by_cases hi : k' = ident
      · subst hi
        have hk2 : ¬ (k = k') := fun h => hk h.symm
        simp [hk2]
      · simp [hi, ih]

/-- Lookup after registering a sequence of constructions: the most recently
constructed error with the identifier wins; otherwise the initial registry
decides. -/
theorem lookupKey_foldl (errs : List BaseError) :
    ∀ (reg : BaseError.Registry) (ident : String),
    BaseError.lookupKey (errs.foldl BaseError.registerInstance reg) ident =
      match lastWith errs ident with
      | some e => some e
      | none => BaseError.lookupKey reg ident := by
  induction errs with
  | nil => intro reg ident; simp [lastWith]
  | cons e rest ih =>
    intro reg ident
    simp only [List.foldl_cons, lastWith]
    rw [ih]
    cases hlw : lastWith rest ident with
    | some r => simp
    | none =>
      simp only
      rw [BaseError.registerInstance, lookupKey_setKey]
      by_cases hid : e.identifier = ident
      · simp [hid]
      · simp [hid]

/-- C9: after any sequence of `BaseError` constructions, `from_identifier`
returns the most recently constructed instance whose identifier's string
form matches (later constructions replace earlier ones), and raises a
`ValueError` naming the identifier when no construction matched. -/
theorem claim_C9_registry_lookup (errs : List BaseError) (ident : String) :
    BaseError.from_identifier (BaseError.buildRegistry errs) ident =
      match lastWith errs ident with
      | some e => .ok e
      | none => .error ("Unknown error identifier: " ++ ident) := by
  rw [BaseError.from_identifier, BaseError.buildRegistry, lookupKey_foldl]
  cases lastWith errs ident with
  | some e => rfl
  | none => rfl

/-- C10: when the callback resolves the code, `build_exception` returns an
HTTP exception whose status code is the error's `http_code` (or a
websocket exception whose close code is the error's `websocket_code`), and
the serialized detail carries the error's identifier as its code together
with the optional message and details. -/
theorem claim_C10_build_exception
    (callback : String → Except String BaseError) (code : String)
    (err : BaseError) (message : Option String)
    (headers : Option (List (String × String))) (details : Option String)
    (h : callback code = .ok err) :
    ExceptionHandler.build_exception callback code message headers details .http =
      .ok (.httpExc ⟨message, err.identifier, err.http_code, details⟩
        headers err.http_code) ∧
    ExceptionHandler.build_exception callback code message headers details .websocket =
      .ok (.websocketExc ⟨message, err.identifier, err.websocket_code, details⟩
        err.websocket_code) := by
  constructor <;>
    simp [ExceptionHandler.build_exception, h, ExceptionHandler._http_exception,
      ExceptionHandler._websocket_exception, Except.bind, bind, pure, Except.pure]

/-- Witness for C10 with the `object_not_found` error of the module's
usage example (HTTP 404, websocket close code 1008). -/
theorem claim_C10_build_exception_witness :
    (fun c => if c = "object_not_found"
        then Except.ok (⟨"object_not_found", 404, 1008⟩ : BaseError)
        else Except.error c) "object_not_found" =
      Except.ok (⟨"object_not_found", 404, 1008⟩ : BaseError) ∧
    ExceptionHandler.build_exception
      (fun c => if c = "object_not_found"
        then Except.ok (⟨"object_not_found", 404, 1008⟩ : BaseError)
        else Except.error c)
      "object_not_found" (some "missing") none none .http =
      .ok (.httpExc ⟨some "missing", "object_not_found", 404, none⟩ none 404) ∧
    ExceptionHandler.build_exception
      (fun c => if c = "object_not_found"
        then Except.ok (⟨"object_not_found", 404, 1008⟩ : BaseError)
        else Except.error c)
      "object_not_found" (some "missing") none none .websocket =
      .ok (.websocketExc ⟨some "missing", "object_not_found", 1008, none⟩ 1008) :=
  ⟨rfl,
   (claim_C10_build_exception _ "object_not_found" ⟨"object_not_found", 404, 1008⟩
      (some "missing") none none rfl).1,
   (claim_C10_build_exception _ "object_not_found" ⟨"object_not_found", 404, 1008⟩
      (some "missing") none none rfl).2⟩
